import Mathlib

/-!
Verification of the simulated asynchronous fetch helper of the
js-coding-challanges-part2 repository.

The repository's recurring structured component is a `fetchData`-style
function returning a Promise that settles after a fixed `setTimeout`
delay.  Two variants occur in the sources:

* `fetchData` in `src/src/sixteen.js` (identical to the one in the
  Challenge-15 promise file): after 2000 ms it resolves with
  `{ id, data: "Some data" }` when `id % 2 === 0`, and rejects with
  `new Error("ID must be even")` otherwise.  Consumers are the
  async/await `getData` and a `.then/.catch/.finally` chain.
* `fetchData` in the Challenge-25 `Promise.all` file: after 1000 ms it
  rejects with the plain string `` `Error: Invalid ID ${id}` `` when
  `id < 1 || id > 3`, and resolves with `` `Data for ID ${id}` ``
  otherwise; `Promise.all` is applied to ids 1, 2, 3, 4.

A settled JavaScript promise is embedded as a record of its fixed delay
and its eventual outcome (`Except`), plus an explicit pending/settled
state as a function of elapsed time.  JavaScript's `%` on integers is
truncated remainder, embedded as `Int.tmod`.
-/

/-- Outcome record resolved by the parity-based `fetchData`:
`{ id: id, data: "Some data" }`. -/
structure FetchResult where
  id : Int
  data : String
deriving DecidableEq, Repr

/-- A JavaScript `Error` value as used here: only its `message` is ever
observed (`err.message`). -/
structure JsError where
  message : String
deriving DecidableEq, Repr

/-- A promise with a fixed `setTimeout` delay (in milliseconds) and the
outcome it settles with once the delay has elapsed.  `ε` is the type of
the rejection value, `α` the type of the resolution value. -/
structure Promise (ε α : Type) where
  delay : Nat
  result : Except ε α

/-- Observable state of one invocation at a given time: the two-state
machine Pending → Settled. -/
inductive PromiseState (ε α : Type) where
  | pending
  | settled (r : Except ε α)

/-- State of a promise `t` milliseconds after the invocation: pending
strictly before the delay has elapsed, settled with the fixed outcome
from then on. -/
def stateAt {ε α : Type} (p : Promise ε α) (t : Nat) : PromiseState ε α :=
  if t < p.delay then PromiseState.pending else PromiseState.settled p.result

/-- Embedding of `fetchData` from `src/src/sixteen.js` (the same code
appears in the Challenge-15 file): `setTimeout(..., 2000)`, then
`if (id % 2 === 0) resolve({ id: id, data: "Some data" }) else
reject(new Error("ID must be even"))`. -/
def fetchData (id : Int) : Promise JsError FetchResult :=
  { delay := 2000
    result :=
      if id.tmod 2 = 0 then
        Except.ok { id := id, data := "Some data" }
      else
        Except.error { message := "ID must be even" } }

/-- JavaScript's truncated remainder test `id % 2 === 0` holds exactly
on the even integers. -/
theorem tmod_two_eq_zero_iff (n : Int) : n.tmod 2 = 0 ↔ Even n := by
  rw [← Int.dvd_iff_tmod_eq_zero]
  exact ⟨fun ⟨k, h⟩ => ⟨k, by omega⟩, fun ⟨k, h⟩ => ⟨k, by omega⟩⟩

/-- Helper: the outcome of `fetchData` on an even identifier. -/
theorem fetchData_result_of_even {n : Int} (h : Even n) :
    (fetchData n).result = Except.ok { id := n, data := "Some data" } := by
  simp [fetchData, (tmod_two_eq_zero_iff n).mpr h]

/-- Helper: the outcome of `fetchData` on an odd identifier. -/
theorem fetchData_result_of_odd {n : Int} (h : Odd n) :
    (fetchData n).result = Except.error { message := "ID must be even" } := by
  have hne : ¬ n.tmod 2 = 0 := fun hc =>
    (Int.not_odd_iff_even.mpr ((tmod_two_eq_zero_iff n).mp hc)) h
  simp [fetchData, hne]

/-- C1: for every even integer `n`, the fetch helper settles with the
success outcome `{ id: n, data: "Some data" }` — the identifier is
echoed back unchanged and the data string is exactly `"Some data"`. -/
theorem fetchData_even_resolves (n : Int) (h : Even n) :
    (fetchData n).result = Except.ok { id := n, data := "Some data" } :=
  fetchData_result_of_even h

/-- Witness for C1 at the concrete even identifier 4. -/
theorem fetchData_even_resolves_witness :
    (fetchData 4).result = Except.ok { id := 4, data := "Some data" } :=
  fetchData_even_resolves 4 ⟨2, by decide⟩

/-- A console line produced by the example consumers: either
`console.log("Fetch Data:", response)` with the resolved record, or
`console.log(s)` with a plain string (an error message or the cleanup
message). -/
inductive ConsoleEntry where
  | fetchLog (response : FetchResult)
  | msg (s : String)
deriving DecidableEq, Repr

/-- Embedding of the `try` block of `getData` from `src/src/sixteen.js`:
`const response = await fetchData(id); console.log("Fetch Data:", response)`.
An `Except.error` is an exception escaping the block. -/
def getDataTry (id : Int) : Except JsError (List ConsoleEntry) :=
  (fetchData id).result.map fun response => [ConsoleEntry.fetchLog response]

/-- Embedding of `getData` from `src/src/sixteen.js`: the `try` body,
with `catch (err) { console.log(err.message) }` converting any
exception into normal completion.  The returned value is `Except.ok`
of the console output exactly when the caller is not crashed. -/
def getData (id : Int) : Except JsError (List ConsoleEntry) :=
  match getDataTry id with
  | Except.ok logs => Except.ok logs
  | Except.error err => Except.ok [ConsoleEntry.msg err.message]

/-- Embedding of the Challenge-15 consumer chain
`fetchData(n).then((msg) => console.log("Fetch Data:", msg))
.catch((err) => console.log(err.message))
.finally(() => console.log("callbacks completed..!"))`:
the settled handler output followed by the finally handler's output,
which runs regardless of the outcome. -/
def thenCatchFinally (p : Promise JsError FetchResult) : List ConsoleEntry :=
  (match p.result with
    | Except.ok m => [ConsoleEntry.fetchLog m]
    | Except.error e => [ConsoleEntry.msg e.message]) ++
  [ConsoleEntry.msg "callbacks completed..!"]

/-- Number of executions of the finally handler recorded in a console
log: the handler's whole body is `console.log("callbacks completed..!")`,
so its run count is the count of that line. -/
def finallyRuns (logs : List ConsoleEntry) : Nat :=
  logs.count (ConsoleEntry.msg "callbacks completed..!")

namespace Challenge25

/-- Embedding of `fetchData` from the Challenge-25 `Promise.all` file:
`setTimeout(..., 1000)`, then
`if (id < 1 || id > 3) reject(`Error: Invalid ID ${id}`)
else resolve(`Data for ID ${id}`)`.  Both the resolution and the
rejection values are plain strings, not `Error` objects. -/
def fetchData (id : Int) : Promise String String :=
  { delay := 1000
    result :=
      if id < 1 ∨ id > 3 then
        Except.error ("Error: Invalid ID " ++ toString id)
      else
        Except.ok ("Data for ID " ++ toString id) }

end Challenge25

/-- Outcome aggregation of `Promise.all` over settled outcomes listed
in settlement order: the first rejection, if any, otherwise the list of
all resolution values in order. -/
def collectAll {ε α : Type} : List (Except ε α) → Except ε (List α)
  | [] => Except.ok []
  | Except.error e :: _ => Except.error e
  | Except.ok v :: rest => (collectAll rest).map (v :: ·)

/-- Embedding of `Promise.all` over a list of promises with equal
delays (as in the Challenge-25 file, where every delay is 1000 ms):
they settle in array order, so the aggregate outcome is the first
rejection in array order, or all resolution values. -/
def promiseAll {ε α : Type} (ps : List (Promise ε α)) : Promise ε (List α) :=
  { delay := (ps.map Promise.delay).foldr Nat.max 0
    result := collectAll (ps.map Promise.result) }

/-- A fan-out of independent invocations of the parity fetch helper,
one per identifier. -/
def runAll (ids : List Int) : List (Promise JsError FetchResult) :=
  ids.map fetchData

/-- Modelled from the spec: no first-to-settle (`Promise.race`-style)
aggregation exists under `src/`; §5 and §8 of the spec describe
`firstOf` as yielding the outcome of whichever of the equal-delay
concurrent operations the scheduler settles first, the tie-break being
implementation-defined.  The scheduler's choice is the explicit index
`k`; the aggregate is the single outcome of that invocation. -/
def firstOf (ids : List Int) (k : Fin ids.length) : Promise JsError FetchResult :=
  fetchData (ids.get k)

/-- C2: for every odd integer `n`, the fetch helper settles with a
rejection carrying exactly the message "ID must be even", and the
guarded consumer receives it as a failure outcome, completing normally
rather than crashing. -/
theorem fetchData_odd_rejects (n : Int) (h : Odd n) :
    (fetchData n).result = Except.error { message := "ID must be even" } ∧
    getData n = Except.ok [ConsoleEntry.msg "ID must be even"] := by
  refine ⟨fetchData_result_of_odd h, ?_⟩
  simp [getData, getDataTry, Except.map, fetchData_result_of_odd h]

/-- Witness for C2 at the concrete odd identifier 3. -/
theorem fetchData_odd_rejects_witness :
    (fetchData 3).result = Except.error { message := "ID must be even" } ∧
    getData 3 = Except.ok [ConsoleEntry.msg "ID must be even"] :=
  fetchData_odd_rejects 3 ⟨1, by decide⟩

/-- Helper: a promise is pending exactly strictly before its delay. -/
theorem stateAt_pending_iff {ε α : Type} (p : Promise ε α) (t : Nat) :
    stateAt p t = PromiseState.pending ↔ t < p.delay := by
  unfold stateAt
  split <;> simp_all

/-- Helper: a promise is settled with its fixed outcome exactly from
its delay on. -/
theorem stateAt_settled_iff {ε α : Type} (p : Promise ε α) (t : Nat) :
    stateAt p t = PromiseState.settled p.result ↔ p.delay ≤ t := by
  unfold stateAt
  split <;> simp_all

/-- C3: every invocation settles with exactly one of the two outcomes —
success or failure, never both, never neither, never a third — and once
settled the state is terminal: at every later time the state is
unchanged. -/
theorem fetchData_settles_exactly_once (id : Int) (t : Nat) (h : 2000 ≤ t) :
    stateAt (fetchData id) t = PromiseState.settled (fetchData id).result ∧
    ((∃ v, (fetchData id).result = Except.ok v) ↔
      ¬ ∃ e, (fetchData id).result = Except.error e) ∧
    (∀ u, t ≤ u → stateAt (fetchData id) u = stateAt (fetchData id) t) := by
  have hd : (fetchData id).delay = 2000 := rfl
  refine ⟨(stateAt_settled_iff _ _).mpr (by omega), ?_, ?_⟩
  · rcases Int.even_or_odd id with he | ho
    · simp [fetchData_result_of_even he]
    · simp [fetchData_result_of_odd ho]
  · intro u hu
    rw [(stateAt_settled_iff (fetchData id) t).mpr (by omega),
      (stateAt_settled_iff (fetchData id) u).mpr (by omega)]

/-- Witness for C3 at identifier 3 and time 2000. -/
theorem fetchData_settles_exactly_once_witness :
    2000 ≤ 2000 ∧
    (stateAt (fetchData 3) 2000 = PromiseState.settled (fetchData 3).result ∧
     ((∃ v, (fetchData 3).result = Except.ok v) ↔
       ¬ ∃ e, (fetchData 3).result = Except.error e) ∧
     (∀ u, 2000 ≤ u → stateAt (fetchData 3) u = stateAt (fetchData 3) 2000)) :=
  ⟨by decide, fetchData_settles_exactly_once 3 2000 (by decide)⟩

/-- C5: the guarded async/await consumer never crashes: for every
identifier it completes normally (`Except.ok`), logging the response on
success and routing a failure to the error path, which logs exactly the
error's message. -/
theorem getData_never_crashes (id : Int) :
    (∃ logs, getData id = Except.ok logs) ∧
    (∀ r, (fetchData id).result = Except.ok r →
      getData id = Except.ok [ConsoleEntry.fetchLog r]) ∧
    (∀ e, (fetchData id).result = Except.error e →
      getData id = Except.ok [ConsoleEntry.msg e.message]) := by
  refine ⟨?_, fun r hr => ?_, fun e he => ?_⟩
  · rcases Int.even_or_odd id with he | ho
    · exact ⟨[ConsoleEntry.fetchLog { id := id, data := "Some data" }],
        by simp [getData, getDataTry, Except.map, fetchData_result_of_even he]⟩
    · exact ⟨[ConsoleEntry.msg "ID must be even"],
        by simp [getData, getDataTry, Except.map, fetchData_result_of_odd ho]⟩
  · simp [getData, getDataTry, Except.map, hr]
  · simp [getData, getDataTry, Except.map, he]

/-- Witness for C5 at the concrete odd identifier 31 (one of the calls
the file actually makes), discharging the failure-routing hypothesis. -/
theorem getData_never_crashes_witness :
    getData 31 = Except.ok [ConsoleEntry.msg "ID must be even"] :=
  (getData_never_crashes 31).2.2 { message := "ID must be even" } rfl

/-- C6: the finally-style cleanup handler attached to an invocation of
the fetch helper runs exactly once, whether the invocation resolved or
rejected. -/
theorem finally_runs_exactly_once (id : Int) :
    finallyRuns (thenCatchFinally (fetchData id)) = 1 := by
  rcases Int.even_or_odd id with he | ho
  · simp [thenCatchFinally, fetchData_result_of_even he, finallyRuns]
  · simp [thenCatchFinally, fetchData_result_of_odd ho, finallyRuns]

/-- C7: settlement never occurs before the fixed delay has elapsed and
always occurs once it has: for both variants of the helper the state is
pending exactly strictly before the delay (2000 ms for the parity
variant, 1000 ms for the Challenge-25 variant) and settled with the
fixed outcome exactly from the delay on — so the delay is both the
minimum and the maximum wait, with no early exit and no cancellation. -/
theorem settlement_timing (id : Int) (t : Nat) :
    (stateAt (fetchData id) t = PromiseState.pending ↔ t < 2000) ∧
    (stateAt (fetchData id) t =
      PromiseState.settled (fetchData id).result ↔ 2000 ≤ t) ∧
    (stateAt (Challenge25.fetchData id) t = PromiseState.pending ↔ t < 1000) ∧
    (stateAt (Challenge25.fetchData id) t =
      PromiseState.settled (Challenge25.fetchData id).result ↔ 1000 ≤ t) :=
  ⟨stateAt_pending_iff (fetchData id) t,
   stateAt_settled_iff (fetchData id) t,
   stateAt_pending_iff (Challenge25.fetchData id) t,
   stateAt_settled_iff (Challenge25.fetchData id) t⟩

/-- C8: the fetch helper is a pure, deterministic function of its
integer input plus a fixed delay: the delay is the same for every
input, each invocation in a fan-out is exactly the promise determined
by its own identifier, and the outcome at a position depends only on
the identifier there — invocations in different (or the same) fan-outs
with equal identifiers settle with identical outcomes, uninfluenced by
the surrounding invocations. -/
theorem fetchData_pure_noninterference (ids₁ ids₂ : List Int) (i j : Nat)
    (n : Int) (h₁ : ids₁[i]? = some n) (h₂ : ids₂[j]? = some n) :
    (∀ m : Int, (fetchData m).delay = 2000) ∧
    (runAll ids₁)[i]? = some (fetchData n) ∧
    (runAll ids₁)[i]? = (runAll ids₂)[j]? := by
  refine ⟨fun m => rfl, ?_, ?_⟩ <;>
    simp [runAll, List.getElem?_map, h₁, h₂]

/-- Witness for C8: identifier 3 at position 1 of the fan-outs over
[2, 3] and [7, 3]. -/
theorem fetchData_pure_noninterference_witness :
    ([2, 3] : List Int)[1]? = some 3 ∧ ([7, 3] : List Int)[1]? = some 3 ∧
    ((∀ m : Int, (fetchData m).delay = 2000) ∧
     (runAll [2, 3])[1]? = some (fetchData 3) ∧
     (runAll [2, 3])[1]? = (runAll [7, 3])[1]?) :=
  ⟨by decide, by decide,
   fetchData_pure_noninterference [2, 3] [7, 3] 1 1 3 (by decide) (by decide)⟩

/-- C9: first-to-settle fan-out over [2, 4, 6]: whichever of the three
equal-delay invocations the scheduler settles first, the aggregate is
that single outcome, and it is a success whose id is one of 2, 4, 6. -/
theorem firstOf_even_ids_single_success (k : Fin ([2, 4, 6] : List Int).length) :
    ∃ n : Int, n ∈ ([2, 4, 6] : List Int) ∧
      (firstOf [2, 4, 6] k).result = Except.ok { id := n, data := "Some data" } := by
  fin_cases k
  · exact ⟨2, by decide, rfl⟩
  · exact ⟨4, by decide, rfl⟩
  · exact ⟨6, by decide, rfl⟩

/-- C10: the Challenge-25 fan-out helper decides success by a range
check, not parity: it resolves with `"Data for ID <id>"` whenever
`1 ≤ id ≤ 3` (the odd ids 1 and 3 included) and rejects with the plain
string `"Error: Invalid ID <id>"` — not an `Error` with message
"ID must be even" — whenever `id < 1` or `id > 3` (the even id 4
included). -/
theorem fetchData_range_check (id : Int) :
    (1 ≤ id ∧ id ≤ 3 →
      (Challenge25.fetchData id).result =
        Except.ok ("Data for ID " ++ toString id)) ∧
    (id < 1 ∨ id > 3 →
      (Challenge25.fetchData id).result =
        Except.error ("Error: Invalid ID " ++ toString id)) := by
  constructor <;> intro h
  · simp only [Challenge25.fetchData]
    rw [if_neg (by omega)]
  · simp only [Challenge25.fetchData]
    rw [if_pos h]

/-- Witness for C10 at the in-range odd id 1 and the out-of-range even
id 4. -/
theorem fetchData_range_check_witness :
    ((1 : Int) ≤ 1 ∧ (1 : Int) ≤ 3 ∧ ((4 : Int) < 1 ∨ (4 : Int) > 3)) ∧
    (Challenge25.fetchData 1).result =
      Except.ok ("Data for ID " ++ toString (1 : Int)) ∧
    (Challenge25.fetchData 4).result =
      Except.error ("Error: Invalid ID " ++ toString (4 : Int)) :=
  ⟨by decide,
   (fetchData_range_check 1).1 (by decide),
   (fetchData_range_check 4).2 (by decide)⟩

/-- C4 (divergence of the code from the claim): the repository's
all-must-succeed fan-out uses the Challenge-25 range-check helper, so
over the claim's identifiers [1, 2, 3] the aggregate resolves with all
three data strings instead of failing with "ID must be even"; the call
the file actually makes, over [1, 2, 3, 4], rejects with the plain
string "Error: Invalid ID 4". -/
theorem allOf_range_code_divergence :
    (promiseAll [Challenge25.fetchData 1, Challenge25.fetchData 2,
        Challenge25.fetchData 3]).result =
      Except.ok ["Data for ID 1", "Data for ID 2", "Data for ID 3"] ∧
    (promiseAll [Challenge25.fetchData 1, Challenge25.fetchData 2,
        Challenge25.fetchData 3, Challenge25.fetchData 4]).result =
      Except.error "Error: Invalid ID 4" := by
  constructor <;> rfl
